import Mathlib

/-!
# Driver_EPD_Virtual.h

A verification development for `src/Driver_EPD_Virtual.h` of PDLS_Common: the
header is embedded as the list of its preprocessor directives and class-level
declarations, a small preprocessor runs it under a build configuration, and the
properties of the resulting interface are proved about that run.

The header has no function bodies. The runtime operations (`begin`,
`reference`, `updateNormal`, `updateFast`, the two-argument constructor) are
declared only; their models are marked as modelled from the specification.
-/

namespace PDLS

/-! ## The preprocessor -/

/-- Object-like macros the header tests or defines. -/
inductive MacroName
  | PDLS_COMMON_RELEASE
  | hV_DRIVER_ALL_RELEASE
  | hV_BOARD_RELEASE
  | hV_UTILITIES_RELEASE
  | TOUCH_MODE
  | USE_TOUCH_NONE
  deriving DecidableEq, Repr

/-- Files the header includes (lines 36, 49, 56). None of them is part of the
sources at hand. -/
inductive HeaderFile
  | PDLS_Common_h
  | hV_Board_h
  | hV_Utilities_h
  deriving DecidableEq, Repr

/-- The build configuration: what the three included files define. They are
not under `src/`, so the values are parameters. A macro that a file leaves
undefined evaluates as `0` inside `#if`, which the value `0` covers. -/
structure Config where
  PDLS_COMMON_RELEASE : Int
  hV_BOARD_RELEASE : Int
  hV_UTILITIES_RELEASE : Int
  TOUCH_MODE : Int
  USE_TOUCH_NONE : Int
  deriving DecidableEq, Repr

/-- Macro environment: `none` is "not defined". -/
abbrev Macros := MacroName → Option Int

/-- Value of an identifier inside `#if`: an identifier that is not a defined
macro is replaced by `0`. -/
def Macros.value (env : Macros) (m : MacroName) : Int :=
  (env m).getD 0

/-- The directive `#define m v`. -/
def Macros.define (env : Macros) (m : MacroName) (v : Int) : Macros :=
  fun n => if n = m then some v else env n

/-- Effect of `#include "file"` on the macro environment. Line 35 of the header
labels `PDLS_Common.h` as "SDK and configuration", so the touch selector comes
with it; each module header brings its own release number. -/
def includeFile (cfg : Config) : HeaderFile → Macros → Macros
  | .PDLS_Common_h, env =>
      ((env.define .PDLS_COMMON_RELEASE cfg.PDLS_COMMON_RELEASE).define
        .TOUCH_MODE cfg.TOUCH_MODE).define .USE_TOUCH_NONE cfg.USE_TOUCH_NONE
  | .hV_Board_h, env => env.define .hV_BOARD_RELEASE cfg.hV_BOARD_RELEASE
  | .hV_Utilities_h, env => env.define .hV_UTILITIES_RELEASE cfg.hV_UTILITIES_RELEASE

/-- Controlling expressions of the `#if` lines of the header. -/
inductive Cond
  /-- The expression `(m < n)`. -/
  | lt (m : MacroName) (n : Int)
  /-- The expression `(a != b)`. -/
  | ne (a b : MacroName)
  deriving DecidableEq, Repr

/-- Evaluation of a controlling expression. -/
def Cond.eval (env : Macros) : Cond → Bool
  | .lt m n => decide (env.value m < n)
  | .ne a b => decide (env.value a ≠ env.value b)

/-! ## Class-level declarations -/

/-- Types written in the header's declarations. -/
inductive CType
  | void
  | bool
  | int8_t
  | uint16_t
  | uint32_t
  | STRING_CONST_TYPE
  | FRAMEBUFFER_CONST_TYPE
  | eScreen_EPD_t
  | pins_t
  /-- The reference type `touch_t &`. -/
  | touch_t_ref
  deriving DecidableEq, Repr

/-- Names of the member functions. -/
inductive MethodName
  | begin
  | reference
  | updateNormal
  | updateFast
  | d_getRawTouch
  | d_getInterruptTouch
  deriving DecidableEq, Repr

/-- Names of the data members. -/
inductive FieldName
  | u_eScreen_EPD
  | u_temperature
  | u_flagOTP
  | d_COG
  deriving DecidableEq, Repr

/-- Which image a frame buffer carries, by its `@param` line. -/
inductive Image
  | next
  | previous
  deriving DecidableEq, Repr

/-- Which colour plane a frame buffer carries, by its `@param` line. -/
inductive Colour
  | black
  | red
  deriving DecidableEq, Repr

/-- Which half of a large panel a frame buffer carries, by its `@param` line. -/
inductive Half
  | master
  | slave
  deriving DecidableEq, Repr

/-- The text of one `@param` line of a frame buffer, such as "next image,
black, master". -/
structure Role where
  image : Image
  colour : Option Colour
  half : Option Half
  deriving DecidableEq, Repr

/-- A function parameter: its type, its name and, for a frame buffer, what its
`@param` lines say (two lines for the two scopes of the two-plane
`updateNormal`). -/
structure Param where
  type : CType
  name : String
  roles : List Role
  deriving DecidableEq, Repr

/-- A member function declaration. -/
structure Method where
  isVirtual : Bool
  ret : CType
  name : MethodName
  params : List Param
  deriving DecidableEq, Repr

/-- A default member initialiser. -/
inductive Init
  | int (v : Int)
  | bool (b : Bool)
  deriving DecidableEq, Repr

/-- A data member declaration. -/
structure Field where
  type : CType
  name : FieldName
  init : Option Init
  deriving DecidableEq, Repr

/-- Access labels. -/
inductive Access
  | isPublic
  | isProtected
  | isPrivate
  deriving DecidableEq, Repr

/-- The pieces of program text between the directives. -/
inductive Decl
  /-- The head `class name: public base` and the opening brace. -/
  | classHead (name base : String)
  | friendClass (name : String)
  | access (a : Access)
  /-- A constructor; `defaulted` is `= default`. -/
  | ctor (params : List Param) (defaulted : Bool)
  /-- The destructor; `defaulted` is `= default`. -/
  | dtor (defaulted : Bool)
  | method (m : Method)
  | field (f : Field)
  /-- The closing brace and semicolon. -/
  | classEnd
  deriving DecidableEq, Repr

/-- One line of the header. -/
inductive Line
  | hashInclude (file : HeaderFile)
  | hashIf (c : Cond)
  | hashIfndef (m : MacroName)
  | hashDefine (m : MacroName) (v : Int)
  | hashError (msg : String)
  | hashEndif
  | code (d : Decl)
  deriving DecidableEq, Repr

/-- State of the preprocessor. `stack` has one entry per open conditional
group, innermost first: whether the text of that group is being kept. -/
structure PPState where
  macros : Macros
  stack : List Bool
  errors : List String
  out : List Decl

/-- Whether the current line is in a kept group. -/
def PPState.active (st : PPState) : Bool :=
  st.stack.headD true

/-- One line of preprocessing. A group nested in a skipped group is skipped;
directives other than conditionals act only in a kept group. -/
def step (cfg : Config) (st : PPState) : Line → PPState
  | .hashInclude f =>
      if st.active then { st with macros := includeFile cfg f st.macros } else st
  | .hashIf c =>
      { st with stack := (st.active && c.eval st.macros) :: st.stack }
  | .hashIfndef m =>
      { st with stack := (st.active && (st.macros m).isNone) :: st.stack }
  | .hashDefine m v =>
      if st.active then { st with macros := st.macros.define m v } else st
  | .hashError msg =>
      if st.active then { st with errors := st.errors ++ [msg] } else st
  | .hashEndif => { st with stack := st.stack.tail }
  | .code d =>
      if st.active then { st with out := st.out ++ [d] } else st

/-- Preprocessing of a list of lines. -/
def preprocess (cfg : Config) (st : PPState) (lines : List Line) : PPState :=
  lines.foldl (step cfg) st

/-! ## The header -/

/-- A frame-buffer parameter. -/
def frameParam (name : String) (roles : List Role) : Param :=
  { type := .FRAMEBUFFER_CONST_TYPE, name := name, roles := roles }

/-- The parameter `uint32_t sizeFrame`. -/
def sizeFrameParam : Param :=
  { type := .uint32_t, name := "sizeFrame", roles := [] }

/-- Lines 36 to 209 of `Driver_EPD_Virtual.h`, comments left out. -/
def Driver_EPD_Virtual_h : List Line :=
  [ .hashInclude .PDLS_Common_h,
    .hashIf (.lt .PDLS_COMMON_RELEASE 900),
    .hashError "Required PDLS_COMMON_RELEASE 900",
    .hashEndif,
    .hashIfndef .hV_DRIVER_ALL_RELEASE,
    .hashDefine .hV_DRIVER_ALL_RELEASE 900,
    .hashInclude .hV_Board_h,
    .hashIf (.lt .hV_BOARD_RELEASE 900),
    .hashError "Required hV_BOARD_RELEASE 900",
    .hashEndif,
    .hashInclude .hV_Utilities_h,
    .hashIf (.lt .hV_UTILITIES_RELEASE 900),
    .hashError "Required hV_UTILITIES_RELEASE 900",
    .hashEndif,
    .code (.classHead "Driver_EPD_Virtual" "hV_Board"),
    .code (.friendClass "Screen_EPD"),
    .code (.access .isPublic),
    .code (.ctor [] true),
    .code (.ctor [{ type := .eScreen_EPD_t, name := "eScreen_EPD", roles := [] },
                  { type := .pins_t, name := "board", roles := [] }] false),
    .code (.dtor true),
    .code (.method { isVirtual := true, ret := .void, name := .begin, params := [] }),
    .code (.method { isVirtual := true, ret := .STRING_CONST_TYPE, name := .reference,
                     params := [] }),
    .code (.method { isVirtual := true, ret := .void, name := .updateNormal,
                     params := [frameParam "frame" [⟨.next, none, none⟩], sizeFrameParam] }),
    .code (.method { isVirtual := true, ret := .void, name := .updateNormal,
                     params := [frameParam "frame1" [⟨.next, some .black, none⟩,
                                                     ⟨.next, some .black, some .master⟩],
                                frameParam "frame2" [⟨.next, some .red, none⟩,
                                                     ⟨.next, some .black, some .slave⟩],
                                sizeFrameParam] }),
    .code (.method { isVirtual := true, ret := .void, name := .updateNormal,
                     params := [frameParam "frameM1" [⟨.next, some .black, some .master⟩],
                                frameParam "frameM2" [⟨.next, some .red, some .master⟩],
                                frameParam "frameS1" [⟨.next, some .black, some .slave⟩],
                                frameParam "frameS2" [⟨.next, some .red, some .slave⟩],
                                sizeFrameParam] }),
    .code (.method { isVirtual := true, ret := .void, name := .updateFast,
                     params := [frameParam "frame1" [⟨.next, none, none⟩],
                                frameParam "frame2" [⟨.previous, none, none⟩],
                                sizeFrameParam] }),
    .code (.method { isVirtual := true, ret := .void, name := .updateFast,
                     params := [frameParam "frameM1" [⟨.next, none, some .master⟩],
                                frameParam "frameM2" [⟨.previous, none, some .master⟩],
                                frameParam "frameS1" [⟨.next, none, some .slave⟩],
                                frameParam "frameS2" [⟨.previous, none, some .slave⟩],
                                sizeFrameParam] }),
    .code (.access .isProtected),
    .code (.field { type := .eScreen_EPD_t, name := .u_eScreen_EPD, init := none }),
    .code (.field { type := .int8_t, name := .u_temperature, init := some (.int 25) }),
    .code (.field { type := .bool, name := .u_flagOTP, init := some (.bool false) }),
    .code (.field { type := .uint16_t, name := .d_COG, init := none }),
    .hashIf (.ne .TOUCH_MODE .USE_TOUCH_NONE),
    .code (.method { isVirtual := true, ret := .void, name := .d_getRawTouch,
                     params := [{ type := .touch_t_ref, name := "touch", roles := [] }] }),
    .code (.method { isVirtual := true, ret := .bool, name := .d_getInterruptTouch,
                     params := [] }),
    .hashEndif,
    .code (.access .isPrivate),
    .code .classEnd,
    .hashEndif ]

/-- The preprocessor before an inclusion of the header: nothing is defined but
possibly the include guard `hV_DRIVER_ALL_RELEASE`. -/
def startState (guard : Option Int) : PPState :=
  { macros := fun m => if m = .hV_DRIVER_ALL_RELEASE then guard else none
    stack := []
    errors := []
    out := [] }

/-- One inclusion of the header under configuration `cfg`; `guard` is the
definition of `hV_DRIVER_ALL_RELEASE` before the inclusion, `none` on a first
inclusion. -/
def includeHeader (cfg : Config) (guard : Option Int) : PPState :=
  preprocess cfg (startState guard) Driver_EPD_Virtual_h

/-- The build of one inclusion: a reached `#error` makes it fail with the
messages, otherwise it yields the declarations. -/
def build (cfg : Config) (guard : Option Int) : Except (List String) (List Decl) :=
  let st := includeHeader cfg guard
  if st.errors = [] then .ok st.out else .error st.errors

/-- The build of an inclusion succeeds. -/
def accepted (cfg : Config) (guard : Option Int) : Bool :=
  match build cfg guard with
  | .ok _ => true
  | .error _ => false

/-- The declarations a first inclusion of the header hands to the compiler
under configuration `cfg`. -/
def interface (cfg : Config) : List Decl :=
  (includeHeader cfg none).out

/-! ## Reading the class declaration -/

/-- The member functions among the declarations, in order. -/
def methodsOf (decls : List Decl) : List Method :=
  decls.filterMap fun d =>
    match d with
    | .method m => some m
    | _ => none

/-- The data members among the declarations, in order. -/
def fieldsOf (decls : List Decl) : List Field :=
  decls.filterMap fun d =>
    match d with
    | .field f => some f
    | _ => none

/-- The overloads of one member function. -/
def overloads (n : MethodName) (decls : List Decl) : List Method :=
  (methodsOf decls).filter fun m => m.name = n

/-- The frame-buffer parameters of a member function. -/
def Method.frameBuffers (m : Method) : List Param :=
  m.params.filter fun p => p.type = .FRAMEBUFFER_CONST_TYPE

/-- Number of frame-buffer planes a member function takes. -/
def Method.planeCount (m : Method) : Nat :=
  m.frameBuffers.length

/-- The two member functions of the touch section. -/
def MethodName.isTouch : MethodName → Bool
  | .d_getRawTouch => true
  | .d_getInterruptTouch => true
  | _ => false

/-- A virtual member function of the given name is declared. -/
def declaresVirtual (n : MethodName) (decls : List Decl) : Bool :=
  (methodsOf decls).any fun m => m.name = n && m.isVirtual

/-- A member function of the given name is declared. -/
def declares (n : MethodName) (decls : List Decl) : Bool :=
  (methodsOf decls).any fun m => m.name = n

/-- The member functions outside the touch section. -/
def coreMethods (decls : List Decl) : List Method :=
  (methodsOf decls).filter fun m => !m.name.isTouch

/-- The frame buffers taken two by two, in order; `none` for an odd number. -/
def pairsOf : List Param → Option (List (Param × Param))
  | [] => some []
  | a :: b :: rest => (pairsOf rest).map fun ps => (a, b) :: ps
  | [_] => none

/-- A pair of frame buffers is a (next image, previous image) pair of one half
of the panel, by the `@param` lines. -/
def isNextPreviousPair (p : Param × Param) : Bool :=
  p.1.roles.map (fun r => r.image) = [.next] &&
    p.2.roles.map (fun r => r.image) = [.previous] &&
    p.1.roles.map (fun r => r.half) = p.2.roles.map (fun r => r.half)

/-- The frame buffers come in (next image, previous image) pairs. -/
def inNextPreviousPairs (ps : List Param) : Bool :=
  match pairsOf ps with
  | some pairs => pairs.all isNextPreviousPair
  | none => false

/-- The half of the panel a pair of frame buffers belongs to, by the `@param`
line of its first buffer. -/
def pairHalf (p : Param × Param) : List (Option Half) :=
  p.1.roles.map fun r => r.half

/-- The default member initialiser of a data member, if it has one. -/
def defaultInit (decls : List Decl) (f : FieldName) : Option Init :=
  ((fieldsOf decls).find? fun d => d.name = f).bind fun d => d.init

/-! ## The object -/

/-- The type `eScreen_EPD_t` comes from a header that is not at hand: an
enumerated panel identifier, kept as a number. -/
abbrev eScreen_EPD_t := Nat

/-- The type `pins_t` comes from a header that is not at hand: a record of pin
numbers. -/
abbrev pins_t := List Nat

/-- A caller-owned frame buffer: a sequence of bytes. -/
abbrev FrameBuffer := List Nat

/-- Conversion to `int8_t`. -/
def toInt8 (v : Int) : Int :=
  (v + 128) % 256 - 128

/-- Conversion to `uint16_t`. -/
def toUInt16 (v : Int) : Nat :=
  (v % 65536).toNat

/-- The data members of the class (lines 177 to 182). -/
structure Driver_EPD_Virtual where
  u_eScreen_EPD : eScreen_EPD_t
  u_temperature : Int
  u_flagOTP : Bool
  d_COG : Nat
  deriving DecidableEq, Repr

/-- Default-initialisation of the data members as declared in `decls`: a member
with a default member initialiser takes its value, a member without one keeps
the indeterminate value found in `indet`. -/
def Driver_EPD_Virtual.defaultInitialise (decls : List Decl) (indet : Driver_EPD_Virtual) :
    Driver_EPD_Virtual :=
  { u_eScreen_EPD :=
      match defaultInit decls .u_eScreen_EPD with
      | some (.int v) => v.toNat
      | _ => indet.u_eScreen_EPD
    u_temperature :=
      match defaultInit decls .u_temperature with
      | some (.int v) => toInt8 v
      | _ => indet.u_temperature
    u_flagOTP :=
      match defaultInit decls .u_flagOTP with
      | some (.bool b) => b
      | _ => indet.u_flagOTP
    d_COG :=
      match defaultInit decls .d_COG with
      | some (.int v) => toUInt16 v
      | _ => indet.d_COG }

/-- A driver together with what it acts on: the pin mapping held by its
`hV_Board` base, the image shown by the panel, and the number of board-level
transfer-and-wait sequences run so far. -/
structure System where
  self : Driver_EPD_Virtual
  board : pins_t
  panel : List FrameBuffer
  transfers : Nat
  deriving DecidableEq, Repr

/-- The two declared constructors with their arguments. -/
inductive Ctor
  /-- The constructor `Driver_EPD_Virtual() = default` (line 75). -/
  | default
  /-- The constructor `Driver_EPD_Virtual(eScreen_EPD_t, pins_t)` (line 82). -/
  | withScreen (eScreen_EPD : eScreen_EPD_t) (board : pins_t)
  deriving DecidableEq, Repr

/-- Modelled from the spec: the body of the constructor
`Driver_EPD_Virtual(eScreen_EPD_t eScreen_EPD, pins_t board)`, which the header
declares and does not define. The spec has the driver constructed "bound to a
panel identifier and pin set", the pin mapping "copied into the
board-abstraction base", the temperature at its default and the OTP flag false
until the calibration data is read; `d_COG` is set by `begin()`. -/
def constructWithScreen (decls : List Decl) (indet : System) (eScreen_EPD : eScreen_EPD_t)
    (board : pins_t) : System :=
  { indet with
    self := { Driver_EPD_Virtual.defaultInitialise decls indet.self with
              u_eScreen_EPD := eScreen_EPD }
    board := board }

/-- A freshly constructed driver. `indet` holds what the storage and the
hardware contain before construction; the defaulted constructor only applies
the default member initialisers. -/
def construct (decls : List Decl) (indet : System) : Ctor → System
  | .default => { indet with self := Driver_EPD_Virtual.defaultInitialise decls indet.self }
  | .withScreen eScreen_EPD board => constructWithScreen decls indet eScreen_EPD board

/-! ## The operations

The header declares the operations and defines none of them; the definitions
live with the concrete drivers. Their models follow the specification. -/

/-- Modelled from the spec: the body of `begin()`, declared at line 93 and not
defined in the header. The spec: "performs one-time hardware bring-up (reset
sequence, controller detection, OTP read) ... Postcondition: driver ready to
accept updates; `d_COG` populated". `detected` is the controller tag the panel
reports; it is stored in the `uint16_t` member. -/
def begin (detected : Nat) (s : System) : System :=
  { s with self := { s.self with d_COG := toUInt16 detected, u_flagOTP := true } }

/-- What identifies a concrete driver in its reference string. -/
structure Variant where
  scope : String
  release : Nat
  deriving DecidableEq, Repr

/-- Modelled from the spec: the body of `reference()`, declared at line 100 and
not defined in the header. The header documents the result as "scope and
release number", the spec as "an immutable descriptive string identifying the
driver variant and release; pure query, no side effects". The result is the
state after the call and the string: the scope followed by the release number
in decimal. -/
def reference (v : Variant) (s : System) : System × String :=
  (s, v.scope ++ Nat.repr v.release)

/-- Modelled from the spec: the common body of the update operations, declared
at lines 113 to 173 and not defined in the header. The spec: "caller
guarantees buffer size matches `sizeFrame` ... driver performs a full,
flicker-cleared refresh. Side effect: physical panel image changes; operation
is expected to block until the panel hardware signals completion", one
board-level transfer-and-wait sequence per call; "this layer defines no error
type or recovery policy of its own". `planes` are the next images. -/
def refresh (planes : List FrameBuffer) (s : System) : System :=
  { s with panel := planes, transfers := s.transfers + 1 }

/-- A call of one of the five update overloads with its arguments. -/
inductive UpdateCall
  /-- The call `updateNormal(frame, sizeFrame)`. -/
  | normal1 (frame : FrameBuffer) (sizeFrame : Nat)
  /-- The call `updateNormal(frame1, frame2, sizeFrame)`. -/
  | normal2 (frame1 frame2 : FrameBuffer) (sizeFrame : Nat)
  /-- The call `updateNormal(frameM1, frameM2, frameS1, frameS2, sizeFrame)`. -/
  | normal4 (frameM1 frameM2 frameS1 frameS2 : FrameBuffer) (sizeFrame : Nat)
  /-- The call `updateFast(frame1, frame2, sizeFrame)`. -/
  | fast2 (frame1 frame2 : FrameBuffer) (sizeFrame : Nat)
  /-- The call `updateFast(frameM1, frameM2, frameS1, frameS2, sizeFrame)`. -/
  | fast4 (frameM1 frameM2 frameS1 frameS2 : FrameBuffer) (sizeFrame : Nat)
  deriving DecidableEq, Repr

/-- The next images of a call: every buffer of a normal update, the first of
each (next, previous) pair of a fast update. -/
def UpdateCall.nextImages : UpdateCall → List FrameBuffer
  | .normal1 frame _ => [frame]
  | .normal2 frame1 frame2 _ => [frame1, frame2]
  | .normal4 frameM1 frameM2 frameS1 frameS2 _ => [frameM1, frameM2, frameS1, frameS2]
  | .fast2 frame1 _ _ => [frame1]
  | .fast4 frameM1 _ frameS1 _ _ => [frameM1, frameS1]

/-- The effect of an update call on the driver and the panel. -/
def UpdateCall.run (c : UpdateCall) (s : System) : System :=
  refresh c.nextImages s

/-- A sequence of update calls, first call first. -/
def runAll (calls : List UpdateCall) (s : System) : System :=
  calls.foldl (fun t c => c.run t) s

/-! ## Two reference configurations -/

/-- A configuration with current releases and touch enabled. -/
def Config.withTouch : Config :=
  { PDLS_COMMON_RELEASE := 900, hV_BOARD_RELEASE := 900, hV_UTILITIES_RELEASE := 900,
    TOUCH_MODE := 1, USE_TOUCH_NONE := 0 }

/-- A configuration with current releases and touch disabled. -/
def Config.withoutTouch : Config :=
  { PDLS_COMMON_RELEASE := 900, hV_BOARD_RELEASE := 900, hV_UTILITIES_RELEASE := 900,
    TOUCH_MODE := 0, USE_TOUCH_NONE := 0 }

/-! ## The preprocessor run on the header -/

/-- The messages of a first inclusion: one per release number below 900. -/
theorem errors_first (cfg : Config) :
    (includeHeader cfg none).errors =
      (if cfg.PDLS_COMMON_RELEASE < 900 then ["Required PDLS_COMMON_RELEASE 900"] else []) ++
      (if cfg.hV_BOARD_RELEASE < 900 then ["Required hV_BOARD_RELEASE 900"] else []) ++
      (if cfg.hV_UTILITIES_RELEASE < 900 then ["Required hV_UTILITIES_RELEASE 900"] else []) := by
  by_cases h1 : cfg.PDLS_COMMON_RELEASE < 900 <;>
  by_cases h2 : cfg.hV_BOARD_RELEASE < 900 <;>
  by_cases h3 : cfg.hV_UTILITIES_RELEASE < 900 <;>
  by_cases h4 : cfg.TOUCH_MODE = cfg.USE_TOUCH_NONE <;>
  simp [includeHeader, preprocess, Driver_EPD_Virtual_h, step, startState, PPState.active,
    Cond.eval, Macros.value, Macros.define, includeFile, h1, h2, h3, h4]

/-- The declarations of a first inclusion depend on the configuration through
the touch selector only. -/
theorem interface_eq (cfg : Config) :
    interface cfg =
      if cfg.TOUCH_MODE = cfg.USE_TOUCH_NONE then interface Config.withoutTouch
      else interface Config.withTouch := by
  by_cases h1 : cfg.PDLS_COMMON_RELEASE < 900 <;>
  by_cases h2 : cfg.hV_BOARD_RELEASE < 900 <;>
  by_cases h3 : cfg.hV_UTILITIES_RELEASE < 900 <;>
  by_cases h4 : cfg.TOUCH_MODE = cfg.USE_TOUCH_NONE <;>
  simp [interface, includeHeader, preprocess, Driver_EPD_Virtual_h, step, startState,
    PPState.active, Cond.eval, Macros.value, Macros.define, includeFile, h1, h2, h3, h4,
    Config.withTouch, Config.withoutTouch]

/-- A first inclusion leaves the include guard defined as 900. -/
theorem guard_first (cfg : Config) :
    (includeHeader cfg none).macros .hV_DRIVER_ALL_RELEASE = some 900 := by
  by_cases h1 : cfg.PDLS_COMMON_RELEASE < 900 <;>
  by_cases h2 : cfg.hV_BOARD_RELEASE < 900 <;>
  by_cases h3 : cfg.hV_UTILITIES_RELEASE < 900 <;>
  by_cases h4 : cfg.TOUCH_MODE = cfg.USE_TOUCH_NONE <;>
  simp [includeHeader, preprocess, Driver_EPD_Virtual_h, step, startState, PPState.active,
    Cond.eval, Macros.value, Macros.define, includeFile, h1, h2, h3, h4]

/-- The messages of a later inclusion: the guarded part is skipped. -/
theorem errors_again (cfg : Config) (v : Int) :
    (includeHeader cfg (some v)).errors =
      if cfg.PDLS_COMMON_RELEASE < 900 then ["Required PDLS_COMMON_RELEASE 900"] else [] := by
  by_cases h1 : cfg.PDLS_COMMON_RELEASE < 900 <;>
  by_cases h2 : cfg.hV_BOARD_RELEASE < 900 <;>
  by_cases h3 : cfg.hV_UTILITIES_RELEASE < 900 <;>
  by_cases h4 : cfg.TOUCH_MODE = cfg.USE_TOUCH_NONE <;>
  simp [includeHeader, preprocess, Driver_EPD_Virtual_h, step, startState, PPState.active,
    Cond.eval, Macros.value, Macros.define, includeFile, h1, h2, h3, h4]

/-- A later inclusion adds no declaration. -/
theorem out_again (cfg : Config) (v : Int) :
    (includeHeader cfg (some v)).out = [] := by
  by_cases h1 : cfg.PDLS_COMMON_RELEASE < 900 <;>
  by_cases h2 : cfg.hV_BOARD_RELEASE < 900 <;>
  by_cases h3 : cfg.hV_UTILITIES_RELEASE < 900 <;>
  by_cases h4 : cfg.TOUCH_MODE = cfg.USE_TOUCH_NONE <;>
  simp [includeHeader, preprocess, Driver_EPD_Virtual_h, step, startState, PPState.active,
    Cond.eval, Macros.value, Macros.define, includeFile, h1, h2, h3, h4]

/-- A later inclusion leaves the include guard as it was. -/
theorem guard_again (cfg : Config) (v : Int) :
    (includeHeader cfg (some v)).macros .hV_DRIVER_ALL_RELEASE = some v := by
  by_cases h1 : cfg.PDLS_COMMON_RELEASE < 900 <;>
  by_cases h2 : cfg.hV_BOARD_RELEASE < 900 <;>
  by_cases h3 : cfg.hV_UTILITIES_RELEASE < 900 <;>
  by_cases h4 : cfg.TOUCH_MODE = cfg.USE_TOUCH_NONE <;>
  simp [includeHeader, preprocess, Driver_EPD_Virtual_h, step, startState, PPState.active,
    Cond.eval, Macros.value, Macros.define, includeFile, h1, h2, h3, h4]

/-- Acceptance is the absence of messages. -/
theorem accepted_iff (cfg : Config) (guard : Option Int) :
    accepted cfg guard = true ↔ (includeHeader cfg guard).errors = [] := by
  unfold accepted build
  by_cases h : (includeHeader cfg guard).errors = [] <;> simp [h]

/-- A successful build yields the declarations the preprocessor kept. -/
theorem build_ok_iff (cfg : Config) (guard : Option Int) (decls : List Decl) :
    build cfg guard = .ok decls ↔
      (includeHeader cfg guard).errors = [] ∧ decls = (includeHeader cfg guard).out := by
  unfold build
  by_cases h : (includeHeader cfg guard).errors = [] <;> simp [h, eq_comm]

/-- A first inclusion has no message exactly when the three releases are at
least 900. -/
theorem errors_first_nil_iff (cfg : Config) :
    (includeHeader cfg none).errors = [] ↔
      900 ≤ cfg.PDLS_COMMON_RELEASE ∧ 900 ≤ cfg.hV_BOARD_RELEASE ∧
        900 ≤ cfg.hV_UTILITIES_RELEASE := by
  rw [errors_first]
  by_cases h1 : cfg.PDLS_COMMON_RELEASE < 900 <;>
  by_cases h2 : cfg.hV_BOARD_RELEASE < 900 <;>
  by_cases h3 : cfg.hV_UTILITIES_RELEASE < 900 <;>
  simp only [h1, h2, h3, if_true, if_false, List.append_nil, List.nil_append] <;>
  simp <;> omega

/-- The default member initialisers of the class, whatever the configuration
and whether or not the version checks pass. -/
theorem defaultInit_interface (cfg : Config) :
    defaultInit (interface cfg) .u_eScreen_EPD = none ∧
      defaultInit (interface cfg) .u_temperature = some (.int 25) ∧
      defaultInit (interface cfg) .u_flagOTP = some (.bool false) ∧
      defaultInit (interface cfg) .d_COG = none := by
  rw [interface_eq]
  split <;> decide

/-- The digits of a number are never the empty list. -/
theorem toDigitsCore_ne_nil (b : Nat) :
    ∀ (f n : Nat) (ds : List Char), ds ≠ [] ∨ 0 < f → Nat.toDigitsCore b f n ds ≠ [] := by
  intro f
  induction f with
  | zero =>
    intro n ds h
    rcases h with h | h
    · simpa [Nat.toDigitsCore] using h
    · omega
  | succ f ih =>
    intro n ds _
    unfold Nat.toDigitsCore
    by_cases h0 : n / b = 0
    · simp [h0]
    · simp only [h0, if_false]
      exact ih _ _ (Or.inl (by simp))

/-- A number in decimal has at least one character. -/
theorem repr_length_pos (n : Nat) : 0 < (Nat.repr n).length := by
  have h := toDigitsCore_ne_nil 10 (n + 1) n [] (Or.inr (by omega))
  show 0 < (Nat.toDigits 10 n).asString.length
  unfold Nat.toDigits
  rw [List.asString, String.length]
  exact List.length_pos.2 h

/-! ## The claims -/

/-- C1. A freshly constructed driver, by either declared constructor and
whatever its storage held before, has `u_temperature` equal to 25 and
`u_flagOTP` equal to false. -/
theorem fresh_driver_defaults (cfg : Config) (indet : System) (c : Ctor) :
    (construct (interface cfg) indet c).self.u_temperature = 25 ∧
      (construct (interface cfg) indet c).self.u_flagOTP = false := by
  obtain ⟨_, ht, hf, _⟩ := defaultInit_interface cfg
  cases c <;>
    simp [construct, constructWithScreen, Driver_EPD_Virtual.defaultInitialise, ht, hf, toInt8]

/-- C2. On a first inclusion, a board release below 900 or a utilities release
below 900 makes the build fail with the matching `#error` message, and the
build yields no declaration. -/
theorem version_gate_rejects (cfg : Config)
    (h : cfg.hV_BOARD_RELEASE < 900 ∨ cfg.hV_UTILITIES_RELEASE < 900) :
    accepted cfg none = false ∧
      (∃ msgs, build cfg none = .error msgs ∧
        ("Required hV_BOARD_RELEASE 900" ∈ msgs ∨ "Required hV_UTILITIES_RELEASE 900" ∈ msgs)) ∧
      ∀ decls, build cfg none ≠ .ok decls := by
  have hne : (includeHeader cfg none).errors ≠ [] := by
    intro hnil
    have := (errors_first_nil_iff cfg).1 hnil
    omega
  have hmem : "Required hV_BOARD_RELEASE 900" ∈ (includeHeader cfg none).errors ∨
      "Required hV_UTILITIES_RELEASE 900" ∈ (includeHeader cfg none).errors := by
    rw [errors_first]
    rcases h with h | h
    · left; simp [h]
    · right; simp [h]
  refine ⟨?_, ⟨(includeHeader cfg none).errors, ?_, hmem⟩, ?_⟩
  · cases hacc : accepted cfg none
    · rfl
    · exact absurd ((accepted_iff cfg none).1 hacc) hne
  · simp [build, hne]
  · intro decls hok
    exact hne ((build_ok_iff cfg none decls).1 hok).1

/-- Witness of C2: board release 899 with the other releases at 900. -/
theorem version_gate_rejects_witness :
    ((⟨900, 899, 900, 0, 0⟩ : Config).hV_BOARD_RELEASE < 900 ∨
        (⟨900, 899, 900, 0, 0⟩ : Config).hV_UTILITIES_RELEASE < 900) ∧
      accepted ⟨900, 899, 900, 0, 0⟩ none = false ∧
      (∃ msgs, build ⟨900, 899, 900, 0, 0⟩ none = .error msgs ∧
        ("Required hV_BOARD_RELEASE 900" ∈ msgs ∨ "Required hV_UTILITIES_RELEASE 900" ∈ msgs)) ∧
      ∀ decls, build ⟨900, 899, 900, 0, 0⟩ none ≠ .ok decls :=
  ⟨Or.inl (by decide), version_gate_rejects ⟨900, 899, 900, 0, 0⟩ (Or.inl (by decide))⟩

/-- C3. The interface declares exactly three `updateNormal` overloads, of 1, 2
and 4 frame buffers; each returns nothing and takes its frame buffers followed
by exactly one `uint32_t sizeFrame`; no two have the same plane count. -/
theorem updateNormal_overloads (cfg : Config) :
    (overloads .updateNormal (interface cfg)).length = 3 ∧
      (overloads .updateNormal (interface cfg)).map Method.planeCount = [1, 2, 4] ∧
      (∀ m ∈ overloads .updateNormal (interface cfg),
        m.ret = .void ∧ m.params = m.frameBuffers ++ [sizeFrameParam]) ∧
      ((overloads .updateNormal (interface cfg)).map Method.planeCount).Nodup := by
  rw [interface_eq]
  split <;> decide

/-- C4. The interface declares exactly two `updateFast` overloads: one of one
(next image, previous image) pair, one of a master pair followed by a slave
pair; each takes an even number of frame buffers, in pairs with the next image
first, followed by exactly one `uint32_t sizeFrame`. -/
theorem updateFast_overloads (cfg : Config) :
    (overloads .updateFast (interface cfg)).length = 2 ∧
      (overloads .updateFast (interface cfg)).map Method.planeCount = [2, 4] ∧
      (overloads .updateFast (interface cfg)).map
          (fun m => (pairsOf m.frameBuffers).map (List.map pairHalf)) =
        [some [[none]], some [[some .master], [some .slave]]] ∧
      (∀ m ∈ overloads .updateFast (interface cfg),
        inNextPreviousPairs m.frameBuffers = true ∧ m.planeCount % 2 = 0 ∧
          m.params = m.frameBuffers ++ [sizeFrameParam]) := by
  rw [interface_eq]
  split <;> decide

/-- C5. In a built interface each of `d_getRawTouch` and `d_getInterruptTouch`
is declared, and declared virtual, exactly when `TOUCH_MODE` differs from
`USE_TOUCH_NONE`: both or neither, never one of the two; the other methods are
`begin`, `reference`, three `updateNormal` and two `updateFast`, the same in
any two built configurations. -/
theorem touch_all_or_nothing (cfg cfg2 : Config) (decls decls2 : List Decl)
    (h : build cfg none = .ok decls) (h2 : build cfg2 none = .ok decls2) :
    (declaresVirtual .d_getRawTouch decls = true ↔ cfg.TOUCH_MODE ≠ cfg.USE_TOUCH_NONE) ∧
      (declaresVirtual .d_getInterruptTouch decls = true ↔
        cfg.TOUCH_MODE ≠ cfg.USE_TOUCH_NONE) ∧
      (declares .d_getRawTouch decls = true ↔ cfg.TOUCH_MODE ≠ cfg.USE_TOUCH_NONE) ∧
      (declares .d_getInterruptTouch decls = true ↔ cfg.TOUCH_MODE ≠ cfg.USE_TOUCH_NONE) ∧
      declares .d_getRawTouch decls = declares .d_getInterruptTouch decls ∧
      coreMethods decls = coreMethods decls2 ∧
      (coreMethods decls).map (fun m => m.name) =
        [.begin, .reference, .updateNormal, .updateNormal, .updateNormal,
          .updateFast, .updateFast] := by
  have e := ((build_ok_iff cfg none decls).1 h).2
  have e2 := ((build_ok_iff cfg2 none decls2).1 h2).2
  have hc : ∀ c : Config, coreMethods (interface c) = coreMethods (interface Config.withTouch) := by
    intro c
    rw [interface_eq c]
    split
    · decide
    · rfl
  have hon : declaresVirtual .d_getRawTouch (interface Config.withTouch) = true ∧
      declaresVirtual .d_getInterruptTouch (interface Config.withTouch) = true ∧
      declares .d_getRawTouch (interface Config.withTouch) = true ∧
      declares .d_getInterruptTouch (interface Config.withTouch) = true := by decide
  have hoff : declaresVirtual .d_getRawTouch (interface Config.withoutTouch) = false ∧
      declaresVirtual .d_getInterruptTouch (interface Config.withoutTouch) = false ∧
      declares .d_getRawTouch (interface Config.withoutTouch) = false ∧
      declares .d_getInterruptTouch (interface Config.withoutTouch) = false := by decide
  change decls = interface cfg at e
  change decls2 = interface cfg2 at e2
  subst e e2
  refine ⟨?_, ?_, ?_, ?_, ?_, ?_, ?_⟩
  · rw [interface_eq]; split <;> rename_i ht <;> simp [ht, hon, hoff]
  · rw [interface_eq]; split <;> rename_i ht <;> simp [ht, hon, hoff]
  · rw [interface_eq]; split <;> rename_i ht <;> simp [ht, hon, hoff]
  · rw [interface_eq]; split <;> rename_i ht <;> simp [ht, hon, hoff]
  · rw [interface_eq]; split <;> simp [hon, hoff]
  · rw [hc cfg, hc cfg2]
  · rw [hc cfg]; decide

/-- Witness of C5: a build with touch and a build without. -/
theorem touch_all_or_nothing_witness :
    build Config.withTouch none = .ok (interface Config.withTouch) ∧
      build Config.withoutTouch none = .ok (interface Config.withoutTouch) ∧
      declaresVirtual .d_getRawTouch (interface Config.withTouch) = true ∧
      declaresVirtual .d_getInterruptTouch (interface Config.withTouch) = true ∧
      coreMethods (interface Config.withTouch) = coreMethods (interface Config.withoutTouch) :=
  have h := touch_all_or_nothing Config.withTouch Config.withoutTouch
    (interface Config.withTouch) (interface Config.withoutTouch) rfl rfl
  ⟨rfl, rfl, h.1.2 (by decide), h.2.1.2 (by decide), h.2.2.2.2.2.1⟩

/-- C6. No update call changes `d_COG`: after `begin()`, one call of any of
the five overloads, with any buffers and any `sizeFrame`, and any sequence of
such calls, leave it at the value `begin()` stored; and `updateNormal(buf,
4000)` with a 4000-byte buffer runs one transfer and leaves `d_COG` as it
was. -/
theorem d_COG_fixed_by_updates (detected : Nat) (s : System) (c : UpdateCall)
    (calls : List UpdateCall) (buf : FrameBuffer) :
    (c.run (begin detected s)).self.d_COG = (begin detected s).self.d_COG ∧
      (runAll calls (begin detected s)).self.d_COG = toUInt16 detected ∧
      (c.run s).self.d_COG = s.self.d_COG ∧
      ((UpdateCall.normal1 buf 4000).run s).self.d_COG = s.self.d_COG ∧
      ((UpdateCall.normal1 buf 4000).run s).transfers = s.transfers + 1 := by
  have hrun : ∀ (l : List UpdateCall) (t : System), (runAll l t).self = t.self := by
    intro l
    induction l with
    | nil => intro t; rfl
    | cons a l ih => intro t; exact (ih (a.run t)).trans rfl
  refine ⟨rfl, ?_, rfl, rfl, rfl⟩
  rw [hrun]
  rfl

/-- C8. For every driver state, `reference()` returns a non-empty string, a
second call right after returns the same string, and the call leaves
`u_eScreen_EPD`, `u_temperature`, `u_flagOTP`, `d_COG` and the rest of the
state unchanged. -/
theorem reference_pure_stable (v : Variant) (s : System) :
    (reference v s).2 ≠ "" ∧
      (reference v (reference v s).1).2 = (reference v s).2 ∧
      (reference v s).1.self.u_eScreen_EPD = s.self.u_eScreen_EPD ∧
      (reference v s).1.self.u_temperature = s.self.u_temperature ∧
      (reference v s).1.self.u_flagOTP = s.self.u_flagOTP ∧
      (reference v s).1.self.d_COG = s.self.d_COG ∧
      (reference v s).1 = s := by
  refine ⟨?_, rfl, rfl, rfl, rfl, rfl, rfl⟩
  intro h
  have hl := congrArg String.length h
  have hpos := repr_length_pos v.release
  simp [reference, String.length_append] at hl
  omega

/-- C9. The gate checks three releases. A first inclusion is accepted exactly
when `PDLS_COMMON_RELEASE`, `hV_BOARD_RELEASE` and `hV_UTILITIES_RELEASE` are
all at least 900, and it defines `hV_DRIVER_ALL_RELEASE` as 900; releases
(899, 900, 900) are rejected; on an inclusion with `hV_DRIVER_ALL_RELEASE`
already defined only the `PDLS_COMMON_RELEASE` check is applied, nothing is
declared and the guard keeps its value. -/
theorem version_gate_three_releases (cfg : Config) (v touch useNone : Int) :
    (accepted cfg none = true ↔
        900 ≤ cfg.PDLS_COMMON_RELEASE ∧ 900 ≤ cfg.hV_BOARD_RELEASE ∧
          900 ≤ cfg.hV_UTILITIES_RELEASE) ∧
      (includeHeader cfg none).macros .hV_DRIVER_ALL_RELEASE = some 900 ∧
      accepted ⟨899, 900, 900, touch, useNone⟩ none = false ∧
      build ⟨899, 900, 900, touch, useNone⟩ none =
        .error ["Required PDLS_COMMON_RELEASE 900"] ∧
      (accepted cfg (some v) = true ↔ 900 ≤ cfg.PDLS_COMMON_RELEASE) ∧
      (includeHeader cfg (some v)).errors =
        (if cfg.PDLS_COMMON_RELEASE < 900 then ["Required PDLS_COMMON_RELEASE 900"] else []) ∧
      (includeHeader cfg (some v)).out = [] ∧
      (includeHeader cfg (some v)).macros .hV_DRIVER_ALL_RELEASE = some v := by
  refine ⟨?_, guard_first cfg, ?_, ?_, ?_, errors_again cfg v, out_again cfg v,
    guard_again cfg v⟩
  · rw [accepted_iff, errors_first_nil_iff]
  · cases hacc : accepted ⟨899, 900, 900, touch, useNone⟩ none
    · rfl
    · have := (accepted_iff _ _).1 hacc
      rw [errors_first_nil_iff] at this
      simp at this
  · simp [build, errors_first]
  · rw [accepted_iff, errors_again]
    by_cases h1 : cfg.PDLS_COMMON_RELEASE < 900
    · simp [h1]
    · simp [h1]; omega

end PDLS
